import Mathlib

/-!
Verification of the `px4_offboard_interface` autopilot interface
(`src/autopilot_interface.cpp`) against its natural-language specification.

The repository's interface component is shallowly embedded below: pure
setpoint helpers become Lean functions on a record mirroring
`mavlink_set_position_target_local_ned_t`; the bounded-retry command loops
(`enable_offboard_control`, `vehicle_armed`) become fuel-indexed recursive
functions over an environment recording, per attempt, the transport write
result and the telemetry-cache heartbeat observed at that attempt's
predicate check; the message-ingest switch of `read_messages` becomes a
cache-transformer; `start`'s endpoint-identifier adoption step becomes a
state transformer.  C++ `throw EXIT_FAILURE` is modelled as a `fatal`
result constructor carrying the number of command sends performed.
-/

namespace PX4Offboard

/-- Modelled from the spec: the repository header `px4_custom_mode.h` is not
under `src/`.  Spec §3 derives the offboard-engaged view "from a
mode-encoding field's designated sub-range"; the PX4 overlay places the main
mode in the third byte of the 32-bit custom-mode word, with the offboard
main mode numbered 6. -/
def PX4_CUSTOM_MAIN_MODE_OFFBOARD : Nat := 6

/-- Modelled from the spec: MAVLink's active system-status value, against
which `is_armed` compares the cached heartbeat's `system_status` field
(spec §3: "arm state from a status field"). -/
def MAV_STATE_ACTIVE : Nat := 4

/-- MAVLink local-NED coordinate-frame selector used by the setpoint
helpers and the streaming loop's default setpoint. -/
def MAV_FRAME_LOCAL_NED : Nat := 1

/-- Modelled from the spec: the repository header defining the setpoint
type-mask group constants is not under `src/`.  Spec §6 describes the
field-validity mask as "a bitmask selecting which of {position, velocity,
acceleration, yaw, yaw-rate} groups are authoritative", and spec §9 calls
the named group constants "non-overlapping flag bits"; they are therefore
modelled as five distinct single-bit flags, a set bit marking its group
authoritative. -/
def MAVLINK_MSG_SET_POSITION_TARGET_LOCAL_NED_POSITION : Nat := 1

/-- Modelled from the spec: velocity-group flag bit (see the position
flag's comment). -/
def MAVLINK_MSG_SET_POSITION_TARGET_LOCAL_NED_VELOCITY : Nat := 2

/-- Modelled from the spec: acceleration-group flag bit (see the position
flag's comment). -/
def MAVLINK_MSG_SET_POSITION_TARGET_LOCAL_NED_ACCELERATION : Nat := 4

/-- Modelled from the spec: yaw-angle-group flag bit (see the position
flag's comment). -/
def MAVLINK_MSG_SET_POSITION_TARGET_LOCAL_NED_YAW_ANGLE : Nat := 8

/-- Modelled from the spec: yaw-rate-group flag bit (see the position
flag's comment). -/
def MAVLINK_MSG_SET_POSITION_TARGET_LOCAL_NED_YAW_RATE : Nat := 16

/-- MAVLink numeric message identifier for HEARTBEAT. -/
def MAVLINK_MSG_ID_HEARTBEAT : Nat := 0

/-- MAVLink numeric message identifier for SYS_STATUS. -/
def MAVLINK_MSG_ID_SYS_STATUS : Nat := 1

/-- MAVLink numeric message identifier for BATTERY_STATUS. -/
def MAVLINK_MSG_ID_BATTERY_STATUS : Nat := 147

/-- MAVLink numeric message identifier for RADIO_STATUS. -/
def MAVLINK_MSG_ID_RADIO_STATUS : Nat := 109

/-- MAVLink numeric message identifier for LOCAL_POSITION_NED. -/
def MAVLINK_MSG_ID_LOCAL_POSITION_NED : Nat := 32

/-- MAVLink numeric message identifier for GLOBAL_POSITION_INT. -/
def MAVLINK_MSG_ID_GLOBAL_POSITION_INT : Nat := 33

/-- MAVLink numeric message identifier for POSITION_TARGET_LOCAL_NED. -/
def MAVLINK_MSG_ID_POSITION_TARGET_LOCAL_NED : Nat := 85

/-- MAVLink numeric message identifier for POSITION_TARGET_GLOBAL_INT. -/
def MAVLINK_MSG_ID_POSITION_TARGET_GLOBAL_INT : Nat := 87

/-- MAVLink numeric message identifier for HIGHRES_IMU. -/
def MAVLINK_MSG_ID_HIGHRES_IMU : Nat := 105

/-- MAVLink numeric message identifier for ATTITUDE. -/
def MAVLINK_MSG_ID_ATTITUDE : Nat := 30

/-- MAVLink numeric message identifier for VFR_HUD. -/
def MAVLINK_MSG_ID_VFR_HUD : Nat := 74

/-- The heartbeat payload, restricted to the two fields the interface
reads: the 32-bit custom-mode word (`is_in_offboard_mode`) and the
system-status byte (`is_armed`). -/
structure mavlink_heartbeat_t where
  custom_mode : Nat
  system_status : Nat
deriving DecidableEq, Repr

/-- Mirror of `mavlink_set_position_target_local_ned_t`: the setpoint wire
record manipulated by the setpoint helpers, the Setpoint Store and
`write_setpoint`. -/
structure mavlink_set_position_target_local_ned_t where
  time_boot_ms : Nat
  target_system : Nat
  target_component : Nat
  coordinate_frame : Nat
  type_mask : Nat
  x : Float
  y : Float
  z : Float
  vx : Float
  vy : Float
  vz : Float
  afx : Float
  afy : Float
  afz : Float
  yaw : Float
  yaw_rate : Float
deriving Repr

/-- Mirror of the `Time_Stamps` struct: one last-update timestamp per
recognized telemetry kind (0 = never seen). -/
structure Time_Stamps where
  heartbeat : Nat
  sys_status : Nat
  battery_status : Nat
  radio_status : Nat
  local_position_ned : Nat
  global_position_int : Nat
  position_target_local_ned : Nat
  position_target_global_int : Nat
  highres_imu : Nat
  attitude : Nat
  vfr_hud : Nat
deriving DecidableEq, Repr

/-- Mirror of the `Mavlink_Messages` telemetry cache.  The heartbeat
payload is structured (the interface inspects its fields); the other
decoded payloads are opaque to the interface and modelled as their decoded
value of type `Nat`. -/
structure Mavlink_Messages where
  sysid : Nat
  compid : Nat
  heartbeat : mavlink_heartbeat_t
  sys_status : Nat
  battery_status : Nat
  radio_status : Nat
  local_position_ned : Nat
  global_position_int : Nat
  position_target_local_ned : Nat
  position_target_global_int : Nat
  highres_imu : Nat
  attitude : Nat
  vfr_hud : Nat
  time_stamps : Time_Stamps
deriving DecidableEq, Repr

/-- A framed transport message as seen by `read_messages`: its numeric
message id, the sender identifiers of its envelope, and its payload.  The
codec collaborator's per-kind `decode` is treated as total (spec §6): the
heartbeat decode projects `hb_payload`, every other recognized kind's
decode projects the opaque `raw_payload`. -/
structure mavlink_message_t where
  msgid : Nat
  sysid : Nat
  compid : Nat
  hb_payload : mavlink_heartbeat_t
  raw_payload : Nat
deriving DecidableEq, Repr

/-- Interface state: the fields of `Autopilot_Interface` the verified
operations touch. -/
structure Autopilot_Interface where
  write_count : Nat
  control_status : Bool
  setpoint_send_status : Bool
  system_id : Nat
  autopilot_id : Nat
  companion_id : Nat
  current_messages : Mavlink_Messages
  current_setpoint : mavlink_set_position_target_local_ned_t
deriving Repr

/-- Byte 2 of the 32-bit custom-mode word: the PX4 main-mode sub-range
(`custom_mode.main_mode` after the union overlay at line 278 of the
source). -/
def px4_main_mode (custom_mode : Nat) : Nat :=
  custom_mode / 65536 % 256

/-- `is_armed` (source lines 243-261): the cached heartbeat's
`system_status` equals the active state. -/
def is_armed (heartbeat : mavlink_heartbeat_t) : Bool :=
  MAV_STATE_ACTIVE == heartbeat.system_status

/-- `is_in_offboard_mode` (source lines 266-287): the cached heartbeat's
custom-mode main-mode sub-range equals the offboard main mode. -/
def is_in_offboard_mode (heartbeat : mavlink_heartbeat_t) : Bool :=
  px4_main_mode heartbeat.custom_mode == PX4_CUSTOM_MAIN_MODE_OFFBOARD

/-- `set_position` (source lines 45-59): replaces the type mask with the
position-group constant, selects the NED frame, and stores x, y, z. -/
def set_position (x y z : Float)
    (sp : mavlink_set_position_target_local_ned_t) :
    mavlink_set_position_target_local_ned_t :=
  { sp with
    type_mask := MAVLINK_MSG_SET_POSITION_TARGET_LOCAL_NED_POSITION
    coordinate_frame := MAV_FRAME_LOCAL_NED
    x := x, y := y, z := z }

/-- `set_position_velocity` (source lines 76-93): replaces the type mask
with the velocity-group constant, selects the NED frame, and stores the
position and velocity fields. -/
def set_position_velocity (x y z vx vy vz : Float)
    (sp : mavlink_set_position_target_local_ned_t) :
    mavlink_set_position_target_local_ned_t :=
  { sp with
    type_mask := MAVLINK_MSG_SET_POSITION_TARGET_LOCAL_NED_VELOCITY
    coordinate_frame := MAV_FRAME_LOCAL_NED
    x := x, y := y, z := z, vx := vx, vy := vy, vz := vz }

/-- `set_yaw` (source lines 145-155): combines the existing type mask with
the yaw-angle constant by bitwise AND and stores the yaw. -/
def set_yaw (yaw : Float)
    (sp : mavlink_set_position_target_local_ned_t) :
    mavlink_set_position_target_local_ned_t :=
  { sp with
    type_mask := sp.type_mask &&& MAVLINK_MSG_SET_POSITION_TARGET_LOCAL_NED_YAW_ANGLE
    yaw := yaw }

/-- `set_yaw_rate` (source lines 163-170): combines the existing type mask
with the yaw-rate constant by bitwise AND and stores the yaw rate. -/
def set_yaw_rate (yaw_rate : Float)
    (sp : mavlink_set_position_target_local_ned_t) :
    mavlink_set_position_target_local_ned_t :=
  { sp with
    type_mask := sp.type_mask &&& MAVLINK_MSG_SET_POSITION_TARGET_LOCAL_NED_YAW_RATE
    yaw_rate := yaw_rate }

/-- `update_setpoint` (source lines 214-221): overwrite the Setpoint Store
wholesale and raise the send-status flag. -/
def update_setpoint (setpoint : mavlink_set_position_target_local_ned_t)
    (s : Autopilot_Interface) : Autopilot_Interface :=
  { s with current_setpoint := setpoint, setpoint_send_status := true }

/-- `write_setpoint` (source lines 479-518): copy the Setpoint Store into a
local, stamp the local copy's boot time (only when still zero) and the
learned endpoint identifiers, transmit it via `write_message` (which
increments `write_count`), and leave the store untouched.  Returns the new
interface state and the transmitted setpoint. -/
def write_setpoint (t : Nat) (s : Autopilot_Interface) :
    Autopilot_Interface × mavlink_set_position_target_local_ned_t :=
  let sp := s.current_setpoint
  let sp := if sp.time_boot_ms = 0 then { sp with time_boot_ms := t } else sp
  let sp := { sp with target_system := s.system_id, target_component := s.autopilot_id }
  ({ s with write_count := s.write_count + 1 }, sp)

/-- The default setpoint `write_thread` (source lines 1061-1083) installs
on first entry, starting from the uninitialized stack struct `sp`: type
mask = velocity constant AND yaw-rate constant, NED frame, zero velocity,
zero yaw-rate; all other fields keep their prior (garbage) contents. -/
def write_thread_default (sp : mavlink_set_position_target_local_ned_t) :
    mavlink_set_position_target_local_ned_t :=
  { sp with
    type_mask := MAVLINK_MSG_SET_POSITION_TARGET_LOCAL_NED_VELOCITY &&&
                 MAVLINK_MSG_SET_POSITION_TARGET_LOCAL_NED_YAW_RATE
    coordinate_frame := MAV_FRAME_LOCAL_NED
    vx := 0.0, vy := 0.0, vz := 0.0, yaw_rate := 0.0 }

/-- The envelope step of `read_messages` (source lines 317-318): store the
received message's sender identifiers in the cache. -/
def store_envelope (m : mavlink_message_t) (c : Mavlink_Messages) :
    Mavlink_Messages :=
  { c with sysid := m.sysid, compid := m.compid }

/-- The message-id switch of `read_messages` (source lines 321-431),
applied after the envelope identifiers have been stored. -/
def handle_payload (t : Nat) (m : mavlink_message_t) (c : Mavlink_Messages) :
    Mavlink_Messages :=
  if m.msgid = MAVLINK_MSG_ID_HEARTBEAT then
    { c with heartbeat := m.hb_payload
             time_stamps := { c.time_stamps with heartbeat := t } }
  else if m.msgid = MAVLINK_MSG_ID_SYS_STATUS then
    { c with sys_status := m.raw_payload
             time_stamps := { c.time_stamps with sys_status := t } }
  else if m.msgid = MAVLINK_MSG_ID_BATTERY_STATUS then
    { c with battery_status := m.raw_payload
             time_stamps := { c.time_stamps with battery_status := t } }
  else if m.msgid = MAVLINK_MSG_ID_RADIO_STATUS then
    { c with radio_status := m.raw_payload
             time_stamps := { c.time_stamps with radio_status := t } }
  else if m.msgid = MAVLINK_MSG_ID_LOCAL_POSITION_NED then
    { c with local_position_ned := m.raw_payload
             time_stamps := { c.time_stamps with local_position_ned := t } }
  else if m.msgid = MAVLINK_MSG_ID_GLOBAL_POSITION_INT then
    { c with global_position_int := m.raw_payload
             time_stamps := { c.time_stamps with global_position_int := t } }
  else if m.msgid = MAVLINK_MSG_ID_POSITION_TARGET_LOCAL_NED then
    { c with position_target_local_ned := m.raw_payload
             time_stamps := { c.time_stamps with position_target_local_ned := t } }
  else if m.msgid = MAVLINK_MSG_ID_POSITION_TARGET_GLOBAL_INT then
    { c with position_target_global_int := m.raw_payload
             time_stamps := { c.time_stamps with position_target_global_int := t } }
  else if m.msgid = MAVLINK_MSG_ID_HIGHRES_IMU then
    { c with highres_imu := m.raw_payload
             time_stamps := { c.time_stamps with highres_imu := t } }
  else if m.msgid = MAVLINK_MSG_ID_ATTITUDE then
    { c with attitude := m.raw_payload
             time_stamps := { c.time_stamps with attitude := t } }
  else if m.msgid = MAVLINK_MSG_ID_VFR_HUD then
    { c with vfr_hud := m.raw_payload
             time_stamps := { c.time_stamps with vfr_hud := t } }
  else
    c

/-- The per-message body of `read_messages` (source lines 312-433): store
the envelope's sender identifiers in the cache, then dispatch on the
message id. -/
def handle_message (t : Nat) (m : mavlink_message_t) (c : Mavlink_Messages) :
    Mavlink_Messages :=
  handle_payload t m (store_envelope m c)

/-- The closed set of message ids `read_messages` recognizes (spec §6). -/
def recognized_msg_ids : List Nat :=
  [MAVLINK_MSG_ID_HEARTBEAT, MAVLINK_MSG_ID_SYS_STATUS,
   MAVLINK_MSG_ID_BATTERY_STATUS, MAVLINK_MSG_ID_RADIO_STATUS,
   MAVLINK_MSG_ID_LOCAL_POSITION_NED, MAVLINK_MSG_ID_GLOBAL_POSITION_INT,
   MAVLINK_MSG_ID_POSITION_TARGET_LOCAL_NED,
   MAVLINK_MSG_ID_POSITION_TARGET_GLOBAL_INT,
   MAVLINK_MSG_ID_HIGHRES_IMU, MAVLINK_MSG_ID_ATTITUDE,
   MAVLINK_MSG_ID_VFR_HUD]

/-- One `read_messages` round over a batch of successfully framed
messages, in arrival order. -/
def read_messages (t : Nat) (msgs : List mavlink_message_t)
    (c : Mavlink_Messages) : Mavlink_Messages :=
  msgs.foldl (fun acc m => handle_message t m acc) c

/-- Batch ingest lifted to the interface state: only the telemetry cache
changes. -/
def ingest_messages (t : Nat) (msgs : List mavlink_message_t)
    (s : Autopilot_Interface) : Autopilot_Interface :=
  { s with current_messages := read_messages t msgs s.current_messages }

/-- The system-id half of `start`'s adoption step (source lines 878-882):
adopt the cache's envelope system id only when `system_id` is still zero
(unconfigured). -/
def adopt_system_id (s : Autopilot_Interface) : Autopilot_Interface :=
  if s.system_id = 0 then { s with system_id := s.current_messages.sysid } else s

/-- The component-id half of `start`'s adoption step (source lines
885-890): adopt the cache's envelope component id only when
`autopilot_id` is still zero (unconfigured). -/
def adopt_autopilot_id (s : Autopilot_Interface) : Autopilot_Interface :=
  if s.autopilot_id = 0 then { s with autopilot_id := s.current_messages.compid } else s

/-- The endpoint-identifier adoption step of `start` (source lines
877-890). -/
def start_adopt_ids (s : Autopilot_Interface) : Autopilot_Interface :=
  adopt_autopilot_id (adopt_system_id s)

/-- The surroundings of one bounded-retry command loop.  The loops run
concurrently with the ingest loop, so the cache heartbeat may differ at
every predicate check: `hbs i` is the cached heartbeat the loop's `i`-th
predicate check observes, and `writes i` is the transport's byte count for
the loop's `i`-th command send (`serial_port->write_message`). -/
structure CmdEnv where
  writes : Nat → Int
  hbs : Nat → mavlink_heartbeat_t

/-- Outcome of `enable_offboard_control`: `fatal sends` models
`throw EXIT_FAILURE` after `sends` command sends, `success` carries the
final `control_status` and the number of command sends performed. -/
inductive EnableResult where
  | fatal (sends : Nat)
  | success (control_status : Bool) (sends : Nat)
deriving DecidableEq, Repr

/-- The retry loop of `enable_offboard_control` (source lines 572-596):
while attempts remain, send one enable command (a negative byte count is
`throw EXIT_FAILURE`), wait, then check the offboard predicate; on
confirmation set `control_status` and stop.  Exhausting the 50 attempts
with `control_status` still clear is `throw EXIT_FAILURE` (lines
598-602). -/
def enable_loop (env : CmdEnv) : Nat → Nat → EnableResult
  | 0, i => EnableResult.fatal i
  | fuel + 1, i =>
    if env.writes i < 0 then EnableResult.fatal (i + 1)
    else if is_in_offboard_mode (env.hbs i) then EnableResult.success true (i + 1)
    else enable_loop env fuel (i + 1)

/-- `enable_offboard_control` (source lines 557-608): a no-op returning
success when `control_status` is already set, otherwise the 50-attempt
retry loop. -/
def enable_offboard_control (env : CmdEnv) (control_status : Bool) : EnableResult :=
  if control_status then EnableResult.success control_status 0
  else enable_loop env 50 0

/-- Outcome of `vehicle_armed`: `fatal sends` models `throw EXIT_FAILURE`
after `sends` arm-command sends, `success sends` a confirmed armed state
after `sends` sends. -/
inductive ArmResult where
  | fatal (sends : Nat)
  | success (sends : Nat)
deriving DecidableEq, Repr

/-- The retry loop of `vehicle_armed` (source lines 657-676): while
attempts remain, first check the armed predicate and stop on confirmation
without sending; otherwise send one arm command (a negative byte count is
`throw EXIT_FAILURE`) and wait.  Exhausting the 50 attempts unarmed is
`throw EXIT_FAILURE` (lines 678-682). -/
def armed_loop (env : CmdEnv) : Nat → Nat → ArmResult
  | 0, i => ArmResult.fatal i
  | fuel + 1, i =>
    if is_armed (env.hbs i) then ArmResult.success i
    else if env.writes i < 0 then ArmResult.fatal (i + 1)
    else armed_loop env fuel (i + 1)

/-- `vehicle_armed` (source lines 649-693). -/
def vehicle_armed (env : CmdEnv) : ArmResult :=
  armed_loop env 50 0

/-- `disable_offboard_control` (source lines 614-644) around
`toggle_offboard_control` (lines 721-742): when `control_status` is set,
send the disable command once — `write_result` is the transport's byte
count — and clear `control_status` exactly when that count is nonzero
(`if (success)` on the raw `int`); when `control_status` is clear, send
nothing.  Returns the number of command sends and the new
`control_status`. -/
def disable_offboard_control (write_result : Int) (control_status : Bool) :
    Nat × Bool :=
  if control_status then
    (1, if write_result ≠ 0 then false else true)
  else
    (0, control_status)

/-- A heartbeat whose custom-mode word carries the offboard main mode
(byte 2 = 6) and an active system status. -/
def hb_offboard : mavlink_heartbeat_t :=
  { custom_mode := 393216, system_status := 4 }

/-- A heartbeat in a non-offboard mode with a standby system status. -/
def hb_idle : mavlink_heartbeat_t :=
  { custom_mode := 65536, system_status := 3 }

/-- All-zero setpoint record, standing in for concrete prior struct
contents. -/
def sp_zero : mavlink_set_position_target_local_ned_t :=
  { time_boot_ms := 0, target_system := 0, target_component := 0,
    coordinate_frame := 0, type_mask := 0,
    x := 0.0, y := 0.0, z := 0.0, vx := 0.0, vy := 0.0, vz := 0.0,
    afx := 0.0, afy := 0.0, afz := 0.0, yaw := 0.0, yaw_rate := 0.0 }

/-- All-zero timestamp record (no kind seen yet). -/
def ts_zero : Time_Stamps :=
  { heartbeat := 0, sys_status := 0, battery_status := 0, radio_status := 0,
    local_position_ned := 0, global_position_int := 0,
    position_target_local_ned := 0, position_target_global_int := 0,
    highres_imu := 0, attitude := 0, vfr_hud := 0 }

/-- Telemetry cache as the constructor initializes it. -/
def cache_zero : Mavlink_Messages :=
  { sysid := 0, compid := 0, heartbeat := hb_idle, sys_status := 0,
    battery_status := 0, radio_status := 0, local_position_ned := 0,
    global_position_int := 0, position_target_local_ned := 0,
    position_target_global_int := 0, highres_imu := 0, attitude := 0,
    vfr_hud := 0, time_stamps := ts_zero }

/-- Interface state as the constructor initializes it (source lines
180-204): all counters and identifiers zero, all status flags clear. -/
def iface_zero : Autopilot_Interface :=
  { write_count := 0, control_status := false, setpoint_send_status := false,
    system_id := 0, autopilot_id := 0, companion_id := 0,
    current_messages := cache_zero, current_setpoint := sp_zero }

/-- If the offboard predicate is false at checks `i, …, j-1`, true at check
`j`, and no write up to attempt `j` is negative, the enable retry loop
started at attempt `i` with at least `j - i + 1` attempts left confirms
after exactly `j + 1` sends. -/
theorem enable_loop_confirms (env : CmdEnv) :
    ∀ fuel i j, i ≤ j → j < i + fuel →
    (∀ k, i ≤ k → k < j → is_in_offboard_mode (env.hbs k) = false) →
    is_in_offboard_mode (env.hbs j) = true →
    (∀ k, i ≤ k → k ≤ j → 0 ≤ env.writes k) →
    enable_loop env fuel i = EnableResult.success true (j + 1) := by
  intro fuel
  induction fuel with
  | zero =>
    intro i j hij hlt _ _ _
    omega
  | succ fuel ih =>
    intro i j hij hlt hf ht hw
    have hwi : ¬ env.writes i < 0 := by
      have := hw i (Nat.le_refl i) hij
      omega
    rcases Nat.eq_or_lt_of_le hij with hji | hji
    · subst hji
      simp [enable_loop, hwi, ht]
    · have hfi : is_in_offboard_mode (env.hbs i) = false :=
        hf i (Nat.le_refl i) hji
      simp only [enable_loop, if_neg hwi, hfi, Bool.false_eq_true, if_false]
      exact ih (i + 1) j hji (by omega)
        (fun k hk1 hk2 => hf k (by omega) hk2) ht
        (fun k hk1 hk2 => hw k (by omega) hk2)

/-- If the armed predicate is false at checks `i, …, j-1`, true at check
`j`, and no write before attempt `j` is negative, the arm retry loop
started at check `i` with at least `j - i + 1` attempts left confirms
after exactly `j` sends. -/
theorem armed_loop_confirms (env : CmdEnv) :
    ∀ fuel i j, i ≤ j → j < i + fuel →
    (∀ k, i ≤ k → k < j → is_armed (env.hbs k) = false) →
    is_armed (env.hbs j) = true →
    (∀ k, i ≤ k → k < j → 0 ≤ env.writes k) →
    armed_loop env fuel i = ArmResult.success j := by
  intro fuel
  induction fuel with
  | zero =>
    intro i j hij hlt _ _ _
    omega
  | succ fuel ih =>
    intro i j hij hlt hf ht hw
    rcases Nat.eq_or_lt_of_le hij with hji | hji
    · subst hji
      simp [armed_loop, ht]
    · have hfi : is_armed (env.hbs i) = false := hf i (Nat.le_refl i) hji
      have hwi : ¬ env.writes i < 0 := by
        have := hw i (Nat.le_refl i) hji
        omega
      simp only [armed_loop, hfi, Bool.false_eq_true, if_false, if_neg hwi]
      exact ih (i + 1) j hji (by omega)
        (fun k hk1 hk2 => hf k (by omega) hk2) ht
        (fun k hk1 hk2 => hw k (by omega) hk2)

/-- If the armed predicate never becomes true and no write is negative,
the arm retry loop spends all its attempts, sending one command per
attempt, and ends fatally. -/
theorem armed_loop_exhausts (env : CmdEnv) :
    ∀ fuel i,
    (∀ k, is_armed (env.hbs k) = false) →
    (∀ k, 0 ≤ env.writes k) →
    armed_loop env fuel i = ArmResult.fatal (i + fuel) := by
  intro fuel
  induction fuel with
  | zero =>
    intro i _ _
    simp [armed_loop]
  | succ fuel ih =>
    intro i hf hw
    have hwi : ¬ env.writes i < 0 := by
      have := hw i
      omega
    simp only [armed_loop, hf i, Bool.false_eq_true, if_false, if_neg hwi]
    rw [ih (i + 1) hf hw]
    congr 1
    omega

/-- Claim C1: starting with `control_status` not engaged, if the
offboard-engaged predicate derived from the cached heartbeat is false at
the first two post-send checks and true exactly on the 3rd, and every
command write returns a positive byte count, then `enable_offboard_control`
sends exactly 3 offboard-enable commands, sets `control_status` to
engaged, and returns success (no fatal result). -/
theorem enable_offboard_three_attempts (env : CmdEnv)
    (h0 : is_in_offboard_mode (env.hbs 0) = false)
    (h1 : is_in_offboard_mode (env.hbs 1) = false)
    (h2 : is_in_offboard_mode (env.hbs 2) = true)
    (hw : ∀ k, k < 3 → 0 < env.writes k) :
    enable_offboard_control env false = EnableResult.success true 3 := by
  have h := enable_loop_confirms env 50 0 2 (by omega) (by omega)
    (fun k hk1 hk2 => by
      rcases k with _ | _ | k
      · exact h0
      · exact h1
      · omega)
    h2
    (fun k hk1 hk2 => le_of_lt (hw k (by omega)))
  simpa [enable_offboard_control] using h

/-- Concrete run for C1: offboard confirmed on the 3rd check, all writes
return 1 byte. -/
def envB : CmdEnv :=
  { writes := fun _ => 1
    hbs := fun i => if 2 ≤ i then hb_offboard else hb_idle }

/-- Witness for C1 at the concrete environment `envB`. -/
theorem enable_offboard_three_attempts_witness :
    enable_offboard_control envB false = EnableResult.success true 3 :=
  enable_offboard_three_attempts envB (by decide) (by decide) (by decide)
    (fun k _ => by norm_num [envB])

/-- Claim C2: if the armed predicate (cached heartbeat `system_status`
equal to the active state) never becomes true and every command write
succeeds, `vehicle_armed` sends exactly the 50-attempt ceiling's worth of
arm commands — never more — and returns a fatal result; and whenever the
predicate is already true at some check, it stops there without sending a
further command. -/
theorem vehicle_armed_bounded_retries (env : CmdEnv) :
    ((∀ k, is_armed (env.hbs k) = false) → (∀ k, 0 < env.writes k) →
      vehicle_armed env = ArmResult.fatal 50) ∧
    (∀ j, j < 50 →
      (∀ k, k < j → is_armed (env.hbs k) = false) →
      is_armed (env.hbs j) = true →
      (∀ k, k < j → 0 < env.writes k) →
      vehicle_armed env = ArmResult.success j) := by
  constructor
  · intro hnever hw
    have h := armed_loop_exhausts env 50 0 hnever (fun k => le_of_lt (hw k))
    simpa [vehicle_armed] using h
  · intro j hj hf ht hw
    have h := armed_loop_confirms env 50 0 j (Nat.zero_le j) (by omega)
      (fun k _ hk => hf k hk) ht (fun k _ hk => le_of_lt (hw k hk))
    simpa [vehicle_armed] using h

/-- Concrete run for C2's exhaustion branch: the armed predicate never
becomes true, all writes return 1 byte. -/
def envNeverArmed : CmdEnv :=
  { writes := fun _ => 1, hbs := fun _ => hb_idle }

/-- Concrete run for C2's early-stop branch: armed confirmed at the 3rd
check (index 2), all writes return 1 byte. -/
def envArmedThird : CmdEnv :=
  { writes := fun _ => 1
    hbs := fun i => if 2 ≤ i then hb_offboard else hb_idle }

/-- Witness for C2: at `envNeverArmed` the loop exhausts its 50 sends and
is fatal, at `envArmedThird` it stops after 2 sends. -/
theorem vehicle_armed_bounded_retries_witness :
    vehicle_armed envNeverArmed = ArmResult.fatal 50 ∧
    vehicle_armed envArmedThird = ArmResult.success 2 :=
  ⟨(vehicle_armed_bounded_retries envNeverArmed).1
      (fun k => by simp only [envNeverArmed]; decide)
      (fun k => by norm_num [envNeverArmed]),
   (vehicle_armed_bounded_retries envArmedThird).2 2 (by omega)
      (fun k hk => by
        simp only [envArmedThird]
        rw [if_neg (by omega)]
        decide)
      (by decide)
      (fun k hk => by norm_num [envArmedThird])⟩

/-- Concrete environment where the cached heartbeat already reports
offboard at every check and all writes return 1 byte. -/
def envOffboardNow : CmdEnv :=
  { writes := fun _ => 1, hbs := fun _ => hb_offboard }

/-- Claim C3 counterexample: with the derived offboard predicate already
true but `control_status` still clear, `enable_offboard_control` sends one
command (not zero) and flips `control_status`, refuting the claimed
idempotence with respect to the derived view. -/
theorem enable_offboard_already_engaged_cex :
    is_in_offboard_mode (envOffboardNow.hbs 0) = true ∧
    enable_offboard_control envOffboardNow false = EnableResult.success true 1 := by
  decide

/-- Claim C3 (amended): idempotence holds with respect to the interface's
`control_status` flag — when it is already set, `enable_offboard_control`
issues zero commands and leaves the flag unchanged; when only the derived
heartbeat predicate reports offboard while `control_status` is clear, one
enable command is sent before the first predicate check, after which the
operation stops with `control_status` set. -/
theorem enable_offboard_idempotence (env : CmdEnv) :
    enable_offboard_control env true = EnableResult.success true 0 ∧
    (is_in_offboard_mode (env.hbs 0) = true → 0 ≤ env.writes 0 →
      enable_offboard_control env false = EnableResult.success true 1) := by
  constructor
  · simp [enable_offboard_control]
  · intro h0 hw
    have h := enable_loop_confirms env 50 0 0 (Nat.le_refl 0) (by omega)
      (fun k hk1 hk2 => by omega) h0
      (fun k hk1 hk2 => by
        have hk : k = 0 := by omega
        subst hk
        exact hw)
    simpa [enable_offboard_control] using h

/-- Witness for the amended C3 at the concrete environment
`envOffboardNow`. -/
theorem enable_offboard_idempotence_witness :
    enable_offboard_control envOffboardNow true = EnableResult.success true 0 ∧
    enable_offboard_control envOffboardNow false = EnableResult.success true 1 :=
  ⟨(enable_offboard_idempotence envOffboardNow).1,
   (enable_offboard_idempotence envOffboardNow).2 (by decide) (by decide)⟩

/-- Concrete environment whose every transport write fails with a negative
byte count. -/
def envWriteFails : CmdEnv :=
  { writes := fun _ => -1, hbs := fun _ => hb_idle }

/-- Claim C4 counterexample: a single transport write returning a
non-positive (here negative) byte count is not recovered locally — both
`enable_offboard_control` and `vehicle_armed` stop at that attempt and
propagate a fatal result to the caller. -/
theorem single_write_failure_fatal_cex :
    envWriteFails.writes 0 ≤ 0 ∧
    enable_offboard_control envWriteFails false = EnableResult.fatal 1 ∧
    vehicle_armed envWriteFails = ArmResult.fatal 1 := by
  decide

/-- Claim C4 (amended): a command write returning zero is recovered
locally — the retry loop continues to the next attempt and a zero result
alone never reaches the caller — but a command write returning a negative
byte count is propagated immediately as a fatal result by both
`enable_offboard_control` and `vehicle_armed`. -/
theorem write_failure_handling (env : CmdEnv) :
    (env.writes 0 < 0 →
      enable_offboard_control env false = EnableResult.fatal 1) ∧
    (is_armed (env.hbs 0) = false → env.writes 0 < 0 →
      vehicle_armed env = ArmResult.fatal 1) ∧
    ((∀ k, k ≤ 2 → env.writes k = 0) →
      is_in_offboard_mode (env.hbs 0) = false →
      is_in_offboard_mode (env.hbs 1) = false →
      is_in_offboard_mode (env.hbs 2) = true →
      enable_offboard_control env false = EnableResult.success true 3) ∧
    ((∀ k, k < 2 → env.writes k = 0) →
      is_armed (env.hbs 0) = false →
      is_armed (env.hbs 1) = false →
      is_armed (env.hbs 2) = true →
      vehicle_armed env = ArmResult.success 2) := by
  refine ⟨?_, ?_, ?_, ?_⟩
  · intro hneg
    simp [enable_offboard_control, enable_loop, hneg]
  · intro hna hneg
    simp [vehicle_armed, armed_loop, hna, hneg]
  · intro hz h0 h1 h2
    have h := enable_loop_confirms env 50 0 2 (by omega) (by omega)
      (fun k hk1 hk2 => by
        rcases k with _ | _ | k
        · exact h0
        · exact h1
        · omega)
      h2
      (fun k hk1 hk2 => by
        rw [hz k hk2])
    simpa [enable_offboard_control] using h
  · intro hz h0 h1 h2
    have h := armed_loop_confirms env 50 0 2 (by omega) (by omega)
      (fun k hk1 hk2 => by
        rcases k with _ | _ | k
        · exact h0
        · exact h1
        · omega)
      h2
      (fun k hk1 hk2 => by
        rw [hz k hk2])
    simpa [vehicle_armed] using h

/-- Concrete environment whose writes all return zero bytes, with the
heartbeat reporting offboard and active from the 3rd check on. -/
def envZeroWrites : CmdEnv :=
  { writes := fun _ => 0
    hbs := fun i => if 2 ≤ i then hb_offboard else hb_idle }

/-- Witness for the amended C4: negative writes are fatal at the first
attempt; all-zero writes still let both loops confirm. -/
theorem write_failure_handling_witness :
    enable_offboard_control envWriteFails false = EnableResult.fatal 1 ∧
    vehicle_armed envWriteFails = ArmResult.fatal 1 ∧
    enable_offboard_control envZeroWrites false = EnableResult.success true 3 ∧
    vehicle_armed envZeroWrites = ArmResult.success 2 :=
  ⟨(write_failure_handling envWriteFails).1 (by decide),
   (write_failure_handling envWriteFails).2.1 (by decide) (by decide),
   (write_failure_handling envZeroWrites).2.2.1
      (fun k _ => by norm_num [envZeroWrites]) (by decide) (by decide) (by decide),
   (write_failure_handling envZeroWrites).2.2.2
      (fun k _ => by norm_num [envZeroWrites])
      (by decide) (by decide) (by decide)⟩

/-- Claim C5 (code bug): the default setpoint the streaming loop installs
on first entry does carry zero velocity, zero yaw rate and the NED frame,
but its field-validity mask is the bitwise AND of the velocity flag and
the yaw-rate flag — which, the two flags being non-overlapping bits, is 0
(no group marked authoritative) — not their bitwise OR (= 18, both groups
marked) as the claim and spec §9 require; stamping for transmission
preserves these fields, so every transmitted default carries the empty
mask. -/
theorem write_thread_default_mask_bug :
    (write_thread_default sp_zero).vx = 0.0 ∧
    (write_thread_default sp_zero).vy = 0.0 ∧
    (write_thread_default sp_zero).vz = 0.0 ∧
    (write_thread_default sp_zero).yaw_rate = 0.0 ∧
    (write_thread_default sp_zero).coordinate_frame = MAV_FRAME_LOCAL_NED ∧
    (write_thread_default sp_zero).type_mask =
      (MAVLINK_MSG_SET_POSITION_TARGET_LOCAL_NED_VELOCITY &&&
       MAVLINK_MSG_SET_POSITION_TARGET_LOCAL_NED_YAW_RATE) ∧
    (write_thread_default sp_zero).type_mask = 0 ∧
    (MAVLINK_MSG_SET_POSITION_TARGET_LOCAL_NED_VELOCITY |||
     MAVLINK_MSG_SET_POSITION_TARGET_LOCAL_NED_YAW_RATE) = 18 ∧
    (write_thread_default sp_zero).type_mask ≠
      (MAVLINK_MSG_SET_POSITION_TARGET_LOCAL_NED_VELOCITY |||
       MAVLINK_MSG_SET_POSITION_TARGET_LOCAL_NED_YAW_RATE) ∧
    ((write_setpoint 5
        { iface_zero with
          current_setpoint := write_thread_default sp_zero }).2).vx = 0.0 ∧
    ((write_setpoint 5
        { iface_zero with
          current_setpoint := write_thread_default sp_zero }).2).yaw_rate = 0.0 ∧
    ((write_setpoint 5
        { iface_zero with
          current_setpoint := write_thread_default sp_zero }).2).type_mask = 0 := by
  refine ⟨rfl, rfl, rfl, rfl, rfl, rfl, by decide, by decide, by decide,
    rfl, rfl, by decide⟩

/-- Claim C6 (code bug): after `set_position` the mask is the
position-group flag, and the subsequent `set_yaw` does modify that same
mask in place (and stores the yaw angle), but it combines by bitwise AND —
which, the group flags being non-overlapping bits, leaves the mask 0,
recording neither the position group nor the yaw-angle group, instead of
their union (= 9); likewise `set_yaw_rate` after `set_position_velocity`
leaves the mask 0 instead of the union (= 18). -/
theorem set_yaw_mask_combination_bug :
    (set_position 1.0 2.0 3.0 sp_zero).type_mask =
      MAVLINK_MSG_SET_POSITION_TARGET_LOCAL_NED_POSITION ∧
    (set_yaw 0.5 (set_position 1.0 2.0 3.0 sp_zero)).yaw = 0.5 ∧
    (set_yaw 0.5 (set_position 1.0 2.0 3.0 sp_zero)).type_mask = 0 ∧
    (MAVLINK_MSG_SET_POSITION_TARGET_LOCAL_NED_POSITION |||
     MAVLINK_MSG_SET_POSITION_TARGET_LOCAL_NED_YAW_ANGLE) = 9 ∧
    (set_yaw_rate 0.25
        (set_position_velocity 1.0 2.0 3.0 4.0 5.0 6.0 sp_zero)).type_mask = 0 ∧
    (MAVLINK_MSG_SET_POSITION_TARGET_LOCAL_NED_VELOCITY |||
     MAVLINK_MSG_SET_POSITION_TARGET_LOCAL_NED_YAW_RATE) = 18 := by
  refine ⟨rfl, rfl, by decide, by decide, by decide, by decide⟩

/-- No branch of the message-id switch touches the cache's envelope
system id. -/
theorem handle_payload_sysid (t : Nat) (m : mavlink_message_t)
    (c : Mavlink_Messages) : (handle_payload t m c).sysid = c.sysid := by
  simp only [handle_payload, apply_ite (Mavlink_Messages.sysid), ite_self]

/-- No branch of the message-id switch touches the cache's envelope
component id. -/
theorem handle_payload_compid (t : Nat) (m : mavlink_message_t)
    (c : Mavlink_Messages) : (handle_payload t m c).compid = c.compid := by
  simp only [handle_payload, apply_ite (Mavlink_Messages.compid), ite_self]

/-- Every branch of `handle_message` stores the envelope's sender system
id in the cache. -/
theorem handle_message_sysid (t : Nat) (m : mavlink_message_t)
    (c : Mavlink_Messages) : (handle_message t m c).sysid = m.sysid := by
  unfold handle_message
  rw [handle_payload_sysid]
  rfl

/-- Every branch of `handle_message` stores the envelope's sender
component id in the cache. -/
theorem handle_message_compid (t : Nat) (m : mavlink_message_t)
    (c : Mavlink_Messages) : (handle_message t m c).compid = m.compid := by
  unfold handle_message
  rw [handle_payload_compid]
  rfl

/-- `handle_message` never touches the learned endpoint identifiers or the
other interface fields; lifted over a batch, ingest changes only the
cache's fields, and a uniform-sender nonempty batch leaves the cache's
envelope identifiers equal to that sender. -/
theorem read_messages_sender (t : Nat) (v c : Nat) :
    ∀ msgs : List mavlink_message_t, ∀ cache : Mavlink_Messages,
    msgs ≠ [] → (∀ m ∈ msgs, m.sysid = v ∧ m.compid = c) →
    (read_messages t msgs cache).sysid = v ∧
    (read_messages t msgs cache).compid = c := by
  intro msgs
  induction msgs with
  | nil =>
    intro cache hne _
    exact absurd rfl hne
  | cons m rest ih =>
    intro cache _ hall
    rcases rest with _ | ⟨m2, rest2⟩
    · have hm := hall m (List.mem_cons_self m [])
      simp only [read_messages, List.foldl_cons, List.foldl_nil]
      rw [handle_message_sysid, handle_message_compid]
      exact ⟨hm.1, hm.2⟩
    · have step : read_messages t (m :: m2 :: rest2) cache =
          read_messages t (m2 :: rest2) (handle_message t m cache) := rfl
      rw [step]
      exact ih (handle_message t m cache) (List.cons_ne_nil m2 rest2)
        (fun x hx => hall x (List.mem_cons_of_mem m hx))

/-- Claim C7: when the endpoint identifiers are still unset (zero) as
`start` runs, the adoption step takes them from the sender identifiers
carried by the received messages (e.g. vehicle = 1, component = 50); an
identifier configured manually before `start` is left unchanged; and once
nonzero, no embedded operation — setpoint update, setpoint transmission,
ingest, or the adoption step itself — ever modifies them again. -/
theorem start_learns_endpoint_ids (s : Autopilot_Interface) (t : Nat)
    (msgs : List mavlink_message_t) (v c : Nat) :
    (s.system_id = 0 → s.autopilot_id = 0 → msgs ≠ [] →
      (∀ m ∈ msgs, m.sysid = v ∧ m.compid = c) →
      (start_adopt_ids (ingest_messages t msgs s)).system_id = v ∧
      (start_adopt_ids (ingest_messages t msgs s)).autopilot_id = c) ∧
    (s.system_id ≠ 0 → (start_adopt_ids s).system_id = s.system_id) ∧
    (s.autopilot_id ≠ 0 → (start_adopt_ids s).autopilot_id = s.autopilot_id) ∧
    (∀ S : Autopilot_Interface,
      ∀ sp : mavlink_set_position_target_local_ned_t, ∀ tw : Nat,
      (update_setpoint sp S).system_id = S.system_id ∧
      (update_setpoint sp S).autopilot_id = S.autopilot_id ∧
      ((write_setpoint tw S).1).system_id = S.system_id ∧
      ((write_setpoint tw S).1).autopilot_id = S.autopilot_id ∧
      (ingest_messages tw msgs S).system_id = S.system_id ∧
      (ingest_messages tw msgs S).autopilot_id = S.autopilot_id ∧
      (S.system_id ≠ 0 → S.autopilot_id ≠ 0 → start_adopt_ids S = S)) := by
  refine ⟨?_, ?_, ?_, ?_⟩
  · intro hs ha hne hall
    have hsend := read_messages_sender t v c msgs s.current_messages hne hall
    simp [start_adopt_ids, adopt_system_id, adopt_autopilot_id,
      ingest_messages, hs, ha, hsend.1, hsend.2]
  · intro hs
    simp only [start_adopt_ids, adopt_system_id, if_neg hs, adopt_autopilot_id]
    split <;> rfl
  · intro ha
    have hk : (adopt_system_id s).autopilot_id = s.autopilot_id := by
      unfold adopt_system_id
      split <;> rfl
    simp only [start_adopt_ids, adopt_autopilot_id, hk, if_neg ha]
  · intro S sp tw
    refine ⟨rfl, rfl, rfl, rfl, rfl, rfl, ?_⟩
    intro hs ha
    have h1 : adopt_system_id S = S := by
      unfold adopt_system_id
      rw [if_neg hs]
    simp only [start_adopt_ids, h1, adopt_autopilot_id, if_neg ha]

/-- A heartbeat message from sender (vehicle 1, component 50) with the
offboard main-mode bits set. -/
def msg_hb : mavlink_message_t :=
  { msgid := 0, sysid := 1, compid := 50, hb_payload := hb_offboard,
    raw_payload := 0 }

/-- A system-status message from the same sender (vehicle 1,
component 50). -/
def msg_ss : mavlink_message_t :=
  { msgid := 1, sysid := 1, compid := 50, hb_payload := hb_idle,
    raw_payload := 7 }

/-- Witness for C7 at the concrete scenario: a heartbeat plus a
system-status message from (1, 50) received into a freshly constructed
interface lead the adoption step to learn exactly (1, 50). -/
theorem start_learns_endpoint_ids_witness :
    (start_adopt_ids (ingest_messages 10 [msg_hb, msg_ss] iface_zero)).system_id = 1 ∧
    (start_adopt_ids (ingest_messages 10 [msg_hb, msg_ss] iface_zero)).autopilot_id = 50 :=
  (start_learns_endpoint_ids iface_zero 10 [msg_hb, msg_ss] 1 50).1 rfl rfl
    (List.cons_ne_nil msg_hb [msg_ss])
    (by
      intro m hm
      simp only [List.mem_cons, List.not_mem_nil, or_false] at hm
      rcases hm with rfl | rfl
      · exact ⟨rfl, rfl⟩
      · exact ⟨rfl, rfl⟩)

/-- `n` consecutive `write_setpoint` transmissions starting from state
`s`. -/
def write_setpoint_iter (t : Nat) : Nat → Autopilot_Interface → Autopilot_Interface
  | 0, s => s
  | n + 1, s => write_setpoint_iter t n (write_setpoint t s).1

/-- Claim C8: read-after-write for the Setpoint Store — after
`update_setpoint S` the stored setpoint is exactly `S`, and any number of
intervening `write_setpoint` transmissions leave it unchanged, because the
transmission-time and endpoint-identifier stamping happens on a local
copy, never on the store. -/
theorem setpoint_read_after_write
    (S : mavlink_set_position_target_local_ned_t)
    (s : Autopilot_Interface) (t n : Nat) :
    (update_setpoint S s).current_setpoint = S ∧
    (write_setpoint_iter t n (update_setpoint S s)).current_setpoint = S := by
  constructor
  · rfl
  · have keep : ∀ m : Nat, ∀ st : Autopilot_Interface,
        (write_setpoint_iter t m st).current_setpoint = st.current_setpoint := by
      intro m
      induction m with
      | zero => intro st; rfl
      | succ m ih =>
        intro st
        rw [write_setpoint_iter, ih]
        rfl
    rw [keep]
    rfl

/-- Claim C9: a successfully read message whose kind is outside the
recognized closed set is dropped silently — every decoded payload and
every per-kind timestamp in the telemetry cache is left unchanged, and no
error is raised (the ingest step is a total function that falls through to
the unchanged-cache branch). -/
theorem unrecognized_kinds_dropped (t : Nat) (m : mavlink_message_t)
    (c : Mavlink_Messages) (h : m.msgid ∉ recognized_msg_ids) :
    (handle_message t m c).heartbeat = c.heartbeat ∧
    (handle_message t m c).sys_status = c.sys_status ∧
    (handle_message t m c).battery_status = c.battery_status ∧
    (handle_message t m c).radio_status = c.radio_status ∧
    (handle_message t m c).local_position_ned = c.local_position_ned ∧
    (handle_message t m c).global_position_int = c.global_position_int ∧
    (handle_message t m c).position_target_local_ned = c.position_target_local_ned ∧
    (handle_message t m c).position_target_global_int = c.position_target_global_int ∧
    (handle_message t m c).highres_imu = c.highres_imu ∧
    (handle_message t m c).attitude = c.attitude ∧
    (handle_message t m c).vfr_hud = c.vfr_hud ∧
    (handle_message t m c).time_stamps = c.time_stamps := by
  simp only [recognized_msg_ids, List.mem_cons, List.not_mem_nil, or_false,
    not_or] at h
  obtain ⟨h1, h2, h3, h4, h5, h6, h7, h8, h9, h10, h11⟩ := h
  simp [handle_message, handle_payload, store_envelope,
    h1, h2, h3, h4, h5, h6, h7, h8, h9, h10, h11]

/-- A message of an unrecognized kind (ATTITUDE_QUATERNION, id 31). -/
def msg_unknown : mavlink_message_t :=
  { msgid := 31, sysid := 1, compid := 50, hb_payload := hb_offboard,
    raw_payload := 99 }

/-- Witness for C9: the concrete unrecognized message leaves every payload
and every timestamp of the freshly constructed cache unchanged. -/
theorem unrecognized_kinds_dropped_witness :
    (handle_message 9 msg_unknown cache_zero).heartbeat = cache_zero.heartbeat ∧
    (handle_message 9 msg_unknown cache_zero).sys_status = cache_zero.sys_status ∧
    (handle_message 9 msg_unknown cache_zero).battery_status = cache_zero.battery_status ∧
    (handle_message 9 msg_unknown cache_zero).radio_status = cache_zero.radio_status ∧
    (handle_message 9 msg_unknown cache_zero).local_position_ned = cache_zero.local_position_ned ∧
    (handle_message 9 msg_unknown cache_zero).global_position_int = cache_zero.global_position_int ∧
    (handle_message 9 msg_unknown cache_zero).position_target_local_ned = cache_zero.position_target_local_ned ∧
    (handle_message 9 msg_unknown cache_zero).position_target_global_int = cache_zero.position_target_global_int ∧
    (handle_message 9 msg_unknown cache_zero).highres_imu = cache_zero.highres_imu ∧
    (handle_message 9 msg_unknown cache_zero).attitude = cache_zero.attitude ∧
    (handle_message 9 msg_unknown cache_zero).vfr_hud = cache_zero.vfr_hud ∧
    (handle_message 9 msg_unknown cache_zero).time_stamps = cache_zero.time_stamps :=
  unrecognized_kinds_dropped 9 msg_unknown cache_zero (by decide)

/-- Claim C10: with `control_status` engaged, `disable_offboard_control`
sends exactly one disable command, and clears `control_status` exactly
when the transport write returns a nonzero byte count — including negative
counts, which the transport contract calls failed sends; only a count of
exactly zero leaves `control_status` engaged. -/
theorem disable_offboard_nonzero_clears (len : Int) :
    (disable_offboard_control len true).1 = 1 ∧
    (len ≠ 0 → (disable_offboard_control len true).2 = false) ∧
    (len = 0 → (disable_offboard_control len true).2 = true) := by
  refine ⟨rfl, ?_, ?_⟩
  · intro hne
    simp [disable_offboard_control, hne]
  · intro hz
    simp [disable_offboard_control, hz]

/-- Witness for C10: the write result −1 — a failed send by the transport
contract — still clears `control_status` after the single send, while the
write result 0 leaves it engaged. -/
theorem disable_offboard_nonzero_clears_witness :
    (disable_offboard_control (-1) true).1 = 1 ∧
    (disable_offboard_control (-1) true).2 = false ∧
    (disable_offboard_control 0 true).1 = 1 ∧
    (disable_offboard_control 0 true).2 = true :=
  ⟨(disable_offboard_nonzero_clears (-1)).1,
   (disable_offboard_nonzero_clears (-1)).2.1 (by decide),
   (disable_offboard_nonzero_clears 0).1,
   (disable_offboard_nonzero_clears 0).2.2 rfl⟩

end PX4Offboard
